import Mathlib

/-!
Verification development for the EPICS_CA repository (files CA.py and
CAServer.py), a Python implementation of the EPICS Channel Access protocol
v4.11.  The definitions below are a shallow embedding of the codec, the
client-side PV state table and the server-side message handlers, translated
from the source.  Bytes are modelled as `List Nat` (each entry < 256),
Python integers as `Int`, machine integers via explicit `% 2^w`, and Python
`float` objects by their IEEE-754 bit pattern (`Nat`).  A Python function
that can raise an exception is modelled as returning `Option`; `none` means
the call raises.  Division semantics follow Python 3 (the source declares
"Python Version: 2.7 and 3.7"; `/` is true division).
-/

/-- Big-endian 2-byte encoding of a 16-bit quantity (struct format `>H` and,
after two's-complement wrapping, `>h`). -/
def be16 (n : Nat) : List Nat := [n / 256 % 256, n % 256]

/-- Big-endian 4-byte encoding of a 32-bit quantity (struct formats `>I`, `>i`,
`>f` on the bit pattern). -/
def be32 (n : Nat) : List Nat :=
  [n / 16777216 % 256, n / 65536 % 256, n / 256 % 256, n % 256]

/-- Big-endian 8-byte encoding of a 64-bit quantity (struct format `>d` on the
bit pattern). -/
def be64 (n : Nat) : List Nat :=
  [n / 72057594037927936 % 256, n / 281474976710656 % 256,
   n / 1099511627776 % 256, n / 4294967296 % 256,
   n / 16777216 % 256, n / 65536 % 256, n / 256 % 256, n % 256]

/-- Byte of a message at index `i` (0 when out of range). -/
def byteAt (m : List Nat) (i : Nat) : Nat := m.getD i 0

/-- Read a big-endian u16 field out of an assembled frame. -/
def readBE16 (m : List Nat) (i : Nat) : Nat := 256 * byteAt m i + byteAt m (i + 1)

/-- Read a big-endian u32 field out of an assembled frame. -/
def readBE32 (m : List Nat) (i : Nat) : Nat :=
  16777216 * byteAt m i + 65536 * byteAt m (i + 1) + 256 * byteAt m (i + 2) + byteAt m (i + 3)

/-- Big-endian bytes to an unsigned number (used when decoding elements). -/
def beNat (l : List Nat) : Nat := l.foldl (fun a b => 256 * a + b) 0

/-- Two's-complement reading of an unsigned `w`-bit value (struct signed
formats `h`, `b`, `i` on decode). -/
def toSigned (n : Nat) (w : Nat) : Int :=
  if n < 2 ^ (w - 1) then (n : Int) else (n : Int) - 2 ^ w

/-- Two's-complement wrap of an integer into `w` bits, as numpy's fixed-width
integer constructors do (`numpy.int16(70000)` wraps silently in the numpy of
the source's era). -/
def wrapS (n : Int) (w : Nat) : Int := (n + 2 ^ (w - 1)) % 2 ^ w - 2 ^ (w - 1)

/-- Unsigned `w`-bit two's-complement image of an integer, ready for
big-endian packing (struct `>h` / `b` / `>i` after numpy conversion). -/
def intBits (n : Int) (w : Nat) : Nat := (n % (2 ^ w : Int)).toNat

/-- The five type-code scopes of the CA type table (`types` dict in both
files): plain, STS_, TIME_, GR_, CTRL_. -/
inductive Scope where
  | plain | sts | time | gr | ctrl
deriving DecidableEq, Repr

/-- The seven base types of the CA type table, in the order of codes 0-6:
STRING, SHORT, FLOAT, ENUM, CHAR, LONG, DOUBLE. -/
inductive Base where
  | bstring | bshort | bfloat | benum | bchar | blong | bdouble
deriving DecidableEq, Repr

/-- Scope from index 0-4 (codes come in blocks of 7: plain = 0-6,
STS_ = 7-13, TIME_ = 14-20, GR_ = 21-27, CTRL_ = 28-34). -/
def scopeOfIdx : Nat → Scope
  | 0 => .plain | 1 => .sts | 2 => .time | 3 => .gr | _ => .ctrl

/-- Base from index 0-6 within a scope block. -/
def baseOfIdx : Nat → Base
  | 0 => .bstring | 1 => .bshort | 2 => .bfloat | 3 => .benum
  | 4 => .bchar | 5 => .blong | _ => .bdouble

/-- Decode a type code via the `types` dict (35 codes, 0-34, enumerated in
scope-major order in both files).  `none` models a code for which
`type_name` returns the bare number, so that none of the prefix/suffix
dispatch tests match. -/
def typeOfCode (dt : Nat) : Option (Scope × Base) :=
  if dt < 35 then some (scopeOfIdx (dt / 7), baseOfIdx (dt % 7)) else none

/-- Size in bytes of one encoded element of each base (the divisors 2, 4, 1,
4, 8 appearing in the per-base branches of `value`; 1 for STRING, where the
notion is not used). -/
def elem_size : Base → Nat
  | .bstring => 1 | .bshort => 2 | .bfloat => 4 | .benum => 2
  | .bchar => 1 | .blong => 4 | .bdouble => 8

/-- Size of the scope metadata header that `value` strips from the payload,
exactly as computed by the `header_size` arithmetic in `CA.value` and
`CAServer.value` (both files contain identical tables). -/
def header_size (sc : Scope) (b : Base) : Nat :=
  match sc with
  | .plain => 0
  | .sts => 4 + (match b with | .bchar => 1 | .bdouble => 4 | _ => 0)
  | .time => 12 + (match b with
      | .bshort => 2 | .benum => 2 | .bchar => 3 | .bdouble => 4 | _ => 0)
  | .gr => 4 + (match b with
      | .bstring => 0 | .bshort => 8 + 6 * 2 | .bfloat => 2 + 2 + 8 + 6 * 4
      | .benum => 2 + 16 * 26 | .bchar => 8 + 6 * 1 + 1 | .blong => 8 + 6 * 4
      | .bdouble => 2 + 2 + 8 + 6 * 8)
  | .ctrl => 4 + (match b with
      | .bstring => 0 | .bshort => 8 + 8 * 2 | .bfloat => 2 + 2 + 8 + 8 * 4
      | .benum => 2 + 16 * 26 | .bchar => 8 + 8 * 1 + 1 | .blong => 8 + 8 * 4
      | .bdouble => 2 + 2 + 8 + 8 * 8)

/-- Python `bytes.split(b"\0")`: split on every null byte, keeping empty
pieces; the empty byte string yields one empty piece. -/
def splitOnZero : List Nat → List (List Nat)
  | [] => [[]]
  | 0 :: rest => [] :: splitOnZero rest
  | c :: rest =>
    match splitOnZero rest with
    | g :: gs => (c :: g) :: gs
    | [] => [[c]]

/-- Python `bytes.decode("latin-1")`: each byte becomes the character with
that code point. -/
def latin1 (l : List Nat) : String := ⟨l.map Char.ofNat⟩

/-- One decoded payload element as produced by `value`: a text string
(STRING bases after `.decode('latin-1')`), a raw byte string (STRING bases
in CAServer.py, which does not decode), a Python int (SHORT/ENUM/CHAR/LONG),
or a Python float given by the IEEE bit pattern unpacked from the wire
(FLOAT keeps its 32 raw bits, DOUBLE its 64). -/
inductive CAElem where
  | estr : String → CAElem
  | ebytes : List Nat → CAElem
  | eint : Int → CAElem
  | ef32 : Nat → CAElem
  | ef64 : Nat → CAElem
deriving DecidableEq, Repr

/-- Result of the decoder `value`: a bare scalar, a list of elements, or the
raw payload returned opaquely for an unknown type code. -/
inductive CAValue where
  | scalar : CAElem → CAValue
  | vlist : List CAElem → CAValue
  | vbytes : List Nat → CAValue
deriving DecidableEq, Repr

/-- Decode `count` consecutive elements of `z` bytes each with `dec` (how
`unpack(">%dh" % count, payload[0:z*count])` consumes its input element by
element). -/
def decodeN (z : Nat) (dec : List Nat → CAElem) : Nat → List Nat → List CAElem
  | 0, _ => []
  | k + 1, l => dec (l.take z) :: decodeN z dec k (l.drop z)

/-- The subset of Python values the embedding models as elements: `str`,
`int` and `bool`.  (Python `float` PV values and numpy scalars are not
needed by any claim settled here; every claim about float handling is
settled either on the wire representation (`CAElem.ef32/ef64`) or on inputs
from this subset.) -/
inductive PyScalar where
  | pstr : String → PyScalar
  | pint : Int → PyScalar
  | pbool : Bool → PyScalar
deriving DecidableEq, Repr

/-- A Python value as seen by the encoders: a scalar, or a flat list of
scalars (`isarray` is true exactly for the list case, strings included in
the scalar case, mirroring `isarray` in both files). -/
inductive PyVal where
  | scalar : PyScalar → PyVal
  | plist : List PyScalar → PyVal
deriving DecidableEq, Repr

/-- Python `str()` of a modelled scalar (`str` is the identity on strings;
ints print in decimal; bools print as True/False). -/
def str_of_scalar : PyScalar → String
  | .pstr s => s
  | .pint n => toString n
  | .pbool b => if b then "True" else "False"

/-- Python `repr()` of a modelled scalar, as used for elements inside
`str(list)`.  Strings are quoted; escaping of quotes/backslashes inside the
string is not modelled (no theorem evaluates it on such input). -/
def repr_of_scalar : PyScalar → String
  | .pstr s =>
    String.mk [Char.ofNat 39] ++ s ++ String.mk [Char.ofNat 39]
  | x => str_of_scalar x

/-- Python `str()` of a modelled value (`str` of a list prints the
comma-separated reprs in brackets). -/
def str_of_val : PyVal → String
  | .scalar x => str_of_scalar x
  | .plist l => "[" ++ String.intercalate ", " (l.map repr_of_scalar) ++ "]"

/-- UTF-8 encoding of one character (RFC 3629). -/
def utf8Char (c : Char) : List Nat :=
  let n := c.toNat
  if n < 128 then [n]
  else if n < 2048 then [192 + n / 64, 128 + n % 64]
  else if n < 65536 then [224 + n / 4096, 128 + n / 64 % 64, 128 + n % 64]
  else [240 + n / 262144, 128 + n / 4096 % 64, 128 + n / 64 % 64, 128 + n % 64]

/-- Python `s.encode("UTF-8")` on a string. -/
def utf8Bytes (s : String) : List Nat := (s.data.map utf8Char).join

/-- Characters Python's numeric constructors strip around a literal
(ASCII whitespace; the exotic unicode spaces Python also accepts are not
modelled). -/
def isPySpace (c : Char) : Bool :=
  c = ' ' ∨ c = '\t' ∨ c = '\n' ∨ c = '\r' ∨ c = '\x0b' ∨ c = '\x0c'

/-- Parse one digit group of a Python numeric literal: digits with single
underscores allowed between digits (PEP 515).  Returns the value, the
number of digits consumed and the rest; consuming zero digits is possible
and signalled by a zero count. -/
def digitGroup : List Char → Nat × Nat × List Char
  | c :: '_' :: d :: rest2 =>
    if c.isDigit then
      if d.isDigit then
        let r := digitGroup (d :: rest2)
        ((c.toNat - 48) * 10 ^ r.2.1 + r.1, r.2.1 + 1, r.2.2)
      else (c.toNat - 48, 1, '_' :: d :: rest2)
    else (0, 0, c :: '_' :: d :: rest2)
  | c :: rest =>
    if c.isDigit then
      let r := digitGroup rest
      ((c.toNat - 48) * 10 ^ r.2.1 + r.1, r.2.1 + 1, r.2.2)
    else (0, 0, c :: rest)
  | [] => (0, 0, [])

/-- Optional sign of a numeric literal.  Returns (negative?, rest). -/
def parseSign : List Char → Bool × List Char
  | '+' :: rest => (false, rest)
  | '-' :: rest => (true, rest)
  | rest => (false, rest)

/-- Python `int(str)` (the conversion numpy's fixed-width integer
constructors apply to a string argument): optional surrounding whitespace,
optional sign, then at least one digit (underscore grouping allowed).
`none` models a ValueError. -/
def parsePyInt (s : String) : Option Int :=
  let l := (s.data.dropWhile isPySpace).reverse.dropWhile isPySpace |>.reverse
  let (neg, l1) := parseSign l
  let (v, k, rest) := digitGroup l1
  if k = 0 ∨ rest ≠ [] then none
  else some (if neg then -(v : Int) else (v : Int))

/-- A parsed Python float literal: a finite decimal `mant * 10 ^ exp10`
with a sign, or a signed infinity, or NaN. -/
inductive PFloat where
  | finite : Bool → Nat → Int → PFloat
  | pinf : Bool → PFloat
  | pnan : PFloat
deriving DecidableEq, Repr

/-- Python `float(str)` grammar (what numpy's float32/float64 constructors
apply to a string): whitespace, sign, then `inf`/`infinity`/`nan`
(case-insensitive) or a decimal with optional fraction and exponent,
requiring at least one digit in the mantissa.  `none` models a ValueError. -/
def parsePyFloat (s : String) : Option PFloat :=
  let l := (s.data.dropWhile isPySpace).reverse.dropWhile isPySpace |>.reverse
  let (neg, l1) := parseSign l
  let low := l1.map Char.toLower
  if low = ['i', 'n', 'f'] ∨ low = ['i', 'n', 'f', 'i', 'n', 'i', 't', 'y'] then
    some (.pinf neg)
  else if low = ['n', 'a', 'n'] then
    some .pnan
  else
    let (iv, ik, r1) := digitGroup l1
    let (fv, fk, r2) := match r1 with
      | '.' :: r => digitGroup r
      | _ => (0, 0, r1)
    let hadDot := match r1 with | '.' :: _ => true | _ => false
    if ik + fk = 0 then none
    else
      let r2' := if hadDot then r2 else r1
      let mant := iv * 10 ^ fk + fv
      match r2' with
      | [] => some (.finite neg mant (-(fk : Int)))
      | e :: r3 =>
        if e = 'e' ∨ e = 'E' then
          let (eneg, r4) := parseSign r3
          let (ev, ek, r5) := digitGroup r4
          if ek = 0 ∨ r5 ≠ [] then none
          else
            let e10 : Int := if eneg then -(ev : Int) else (ev : Int)
            some (.finite neg mant (e10 - (fk : Int)))
        else none

/-- Does `2 ^ e ≤ p / q` hold (exact rational comparison)? -/
def pow2Le (p q : Nat) (e : Int) : Bool :=
  if 0 ≤ e then decide (q * 2 ^ e.toNat ≤ p) else decide (q ≤ p * 2 ^ (-e).toNat)

/-- Correctly rounded (round-to-nearest, ties-to-even) IEEE-754 bit pattern
of the positive rational `p / q` for a format with `mbits` mantissa bits and
`ebits` exponent bits (f32: 23/8, f64: 52/11), without the sign bit.
`none` signals overflow beyond the largest finite value's exponent (the
caller maps it to an exception or to infinity as Python does).  Gradual
underflow to subnormals and to zero is handled. -/
def ratToFloatBits (mbits ebits : Nat) (p q : Nat) : Option Nat :=
  if p = 0 ∨ q = 0 then some 0
  else
    let bias : Int := 2 ^ (ebits - 1) - 1
    let e0 : Int := (Nat.log2 p : Int) - (Nat.log2 q : Int)
    let e : Int :=
      if pow2Le p q (e0 + 1) then e0 + 1 else if pow2Le p q e0 then e0 else e0 - 1
    let eEff : Int := max e (1 - bias)
    let s : Int := (mbits : Int) - eEff
    let num := if 0 ≤ s then p * 2 ^ s.toNat else p
    let den := if 0 ≤ s then q else q * 2 ^ (-s).toNat
    let m0 := num / den
    let r := num % den
    let m := if 2 * r > den ∨ (2 * r = den ∧ m0 % 2 = 1) then m0 + 1 else m0
    let m2 := if m ≥ 2 ^ (mbits + 1) then m / 2 else m
    let e2 := if m ≥ 2 ^ (mbits + 1) then eEff + 1 else eEff
    if m2 < 2 ^ mbits then some m2
    else if e2 > bias then none
    else some (((e2 + bias).toNat) * 2 ^ mbits + (m2 - 2 ^ mbits))

/-- Bit pattern of positive or negative infinity. -/
def infBits (mbits ebits : Nat) (sign : Bool) : Nat :=
  (if sign then 2 ^ (mbits + ebits) else 0) + (2 ^ ebits - 1) * 2 ^ mbits

/-- Bit pattern of the quiet NaN Python's `float("nan")` produces. -/
def nanBits (mbits ebits : Nat) : Nat := (2 ^ ebits - 1) * 2 ^ mbits + 2 ^ (mbits - 1)

/-- Bit pattern of 1.0 in the given format (exponent field = bias). -/
def oneBits (mbits ebits : Nat) : Nat := (2 ^ (ebits - 1) - 1) * 2 ^ mbits

/-- numpy `float32(x)` / `float64(x)` on a modelled scalar, as the bit
pattern of the result.  `none` models an exception: an unparsable string
(ValueError), or an int beyond the *float64* range — the int is first taken
through Python `float()`, which raises OverflowError only past ~1.8e308.  A
finite double that merely overflows the target format converts quietly, so
an int between the float32 and float64 limits (e.g. `10 ** 39`) yields
float32 infinity without raising, and a parsed string literal that
overflows yields infinity as well (`float("1e999") == inf`).  (The finite
value of a large int is rounded here directly from the exact integer; going
through double first can differ in the last bit for ints wider than 53
bits — no theorem depends on that value.) -/
def npConvertF (mbits ebits : Nat) : PyScalar → Option Nat
  | .pint n =>
    (match ratToFloatBits 52 11 n.natAbs 1 with
     | none => none
     | some _ =>
       some (match ratToFloatBits mbits ebits n.natAbs 1 with
             | some b => (if n < 0 then 2 ^ (mbits + ebits) else 0) + b
             | none => infBits mbits ebits (decide (n < 0))))
  | .pbool b => some (if b then oneBits mbits ebits else 0)
  | .pstr s =>
    (parsePyFloat s).map (fun pf =>
      match pf with
      | .finite sign mant e10 =>
        let (p, q) :=
          if 0 ≤ e10 then (mant * 10 ^ e10.toNat, 1) else (mant, 10 ^ (-e10).toNat)
        match ratToFloatBits mbits ebits p q with
        | some b => (if sign then 2 ^ (mbits + ebits) else 0) + b
        | none => infBits mbits ebits sign
      | .pinf sign => infBits mbits ebits sign
      | .pnan => nanBits mbits ebits)

/-- numpy `int8(x)` / `int16(x)` / `int32(x)` on a modelled scalar, for
width `w` bits.  An int (or integer string, via Python `int(str)`) inside
the C long range wraps into the target width (two's complement, silently in
the numpy of the source's era); an int outside the C long range
[-2^63, 2^63) raises OverflowError ("Python int too large to convert to C
long"), and an unparsable string raises ValueError: both are `none`. -/
def npConvertI (w : Nat) : PyScalar → Option Int
  | .pint n =>
    if -(2 ^ 63) ≤ n ∧ n < 2 ^ 63 then some (wrapS n w) else none
  | .pbool b => some (if b then 1 else 0)
  | .pstr s =>
    (parsePyInt s).bind (fun n =>
      if -(2 ^ 63) ≤ n ∧ n < 2 ^ 63 then some (wrapS n w) else none)

/-- Function `to(value, dtype)` of CA.py and CAServer.py (the two copies are
identical), specialised to the integer dtypes: force conversion, and on any
exception return 0 (the dtype name does not contain "float"). -/
def to_int (w : Nat) (x : PyScalar) : Int := (npConvertI w x).getD 0

/-- Function `to(value, dtype)` of CA.py and CAServer.py, specialised to the
float dtypes: force conversion, and on any exception return 0.0 (bit
pattern 0; the dtype name contains "float"). -/
def to_float_bits (mbits ebits : Nat) (x : PyScalar) : Nat :=
  (npConvertF mbits ebits x).getD 0

/-- Join byte strings with a null separator (Python `b"\0".join(...)`,
the STRING-array case of the encoders). -/
def joinZero : List (List Nat) → List Nat
  | [] => []
  | [l] => l
  | l :: rest => l ++ 0 :: joinZero rest

/-- Encode with `enc` either the single scalar or each element of the list
(`if isarray(value): for v in value: payload += pack(...)` in both
encoders). -/
def encNum (enc : PyScalar → List Nat) : PyVal → List Nat
  | .plist l => (l.map enc).flatten
  | .scalar x => enc x

/-- Per-base element encoding shared verbatim by `network_data` (CA.py) and
`CA_binary_data` (CAServer.py): STRING via `str(v).encode("UTF-8")`
(null-joined for arrays), SHORT/ENUM via `pack(">h", to(v, int16))`, CHAR
via `pack("b", to(v, int8))`, LONG via `pack(">i", to(v, int32))`, FLOAT via
`pack(">f", to(v, float32))`, DOUBLE via `pack(">d", to(v, float64))`. -/
def encode_elems (b : Base) (v : PyVal) : List Nat :=
  match b with
  | .bstring =>
    (match v with
     | .plist l => joinZero (l.map (fun x => utf8Bytes (str_of_scalar x)))
     | .scalar x => utf8Bytes (str_of_scalar x))
  | .bshort => encNum (fun x => be16 (intBits (to_int 16 x) 16)) v
  | .benum => encNum (fun x => be16 (intBits (to_int 16 x) 16)) v
  | .bchar => encNum (fun x => [intBits (to_int 8 x) 8]) v
  | .blong => encNum (fun x => be32 (intBits (to_int 32 x) 32)) v
  | .bfloat => encNum (fun x => be32 (to_float_bits 23 8 x)) v
  | .bdouble => encNum (fun x => be64 (to_float_bits 52 11 x)) v

/-- All-zero element payload: what `encode_elems` produces for a scalar that
converts to the zero of the base. -/
def zero_elem_bytes (b : Base) : List Nat := List.replicate (elem_size b) 0

/-- Decode `data_count` elements of size `z` bytes with `dec` from the
header-stripped payload, following the shared numeric branch shape of
`value` under Python 3 semantics:
if `data_count > len(payload)/z` the code computes
`data_count = max(len(payload)/z, 1)` where `len(payload)/z` is a float;
when the payload is empty `max` returns the int 1, `ljust` pads `z` zero
bytes and one zero element is decoded, otherwise `max` returns a float and
`bytes.ljust` raises TypeError (`none`).  In the non-clamped branch the
first `z*data_count` bytes are unpacked; a single element is returned bare,
otherwise a list is returned. -/
def decode_elems (z : Nat) (dec : List Nat → CAElem) (data_count : Nat)
    (pl : List Nat) : Option CAValue :=
  if z * data_count ≤ pl.length then
    let elems := decodeN z dec data_count pl
    some (if elems.length = 1 then .scalar (elems.headD (.eint 0)) else .vlist elems)
  else if pl.length = 0 then
    some (.scalar (dec (List.replicate z 0)))
  else none

/-- Element decoder for `>h` (big-endian i16): SHORT and ENUM. -/
def dec_h (chunk : List Nat) : CAElem := .eint (toSigned (beNat chunk) 16)

/-- Element decoder for `b` (signed byte): CHAR. -/
def dec_b (chunk : List Nat) : CAElem := .eint (toSigned (beNat chunk) 8)

/-- Element decoder for `>i` (big-endian i32): LONG. -/
def dec_i (chunk : List Nat) : CAElem := .eint (toSigned (beNat chunk) 32)

/-- Element decoder for `>f`: FLOAT, kept as its 32 raw bits. -/
def dec_f (chunk : List Nat) : CAElem := .ef32 (beNat chunk)

/-- Element decoder for `>d`: DOUBLE, kept as its 64 raw bits. -/
def dec_d (chunk : List Nat) : CAElem := .ef64 (beNat chunk)

namespace CA

/-- Function `value(data_type, data_count, payload)` of CA.py: convert
network binary data to a Python value.  Unknown type codes return the
payload opaquely; known codes first strip the scope header, then decode
STRING payloads by splitting at null bytes (taking at most `data_count`
pieces, decoded latin-1, a single piece returned bare) and numeric payloads
via `decode_elems` (see there for the Python 3 clamping semantics). -/
def value (data_type data_count : Nat) (payload : List Nat) : Option CAValue :=
  match typeOfCode data_type with
  | none => some (.vbytes payload)
  | some td =>
    let pl := payload.drop (header_size td.1 td.2)
    match td.2 with
    | .bstring =>
      let parts := ((splitOnZero pl).take data_count).map latin1
      some (if parts.length = 1 then .scalar (.estr (parts.headD ""))
            else .vlist (parts.map CAElem.estr))
    | .bshort => decode_elems 2 dec_h data_count pl
    | .bfloat => decode_elems 4 dec_f data_count pl
    | .benum => decode_elems 2 dec_h data_count pl
    | .bchar => decode_elems 1 dec_b data_count pl
    | .blong => decode_elems 4 dec_i data_count pl
    | .bdouble => decode_elems 8 dec_d data_count pl

/-- Function `data_count(value, data_type)` of CA.py: number of elements (a
string counts as one element). -/
def data_count : PyVal → Nat
  | .plist l => l.length
  | .scalar _ => 1

/-- The scope metadata header `network_data` (CA.py) prepends to the
payload.  STS_/GR_/CTRL_ carry `pack(">HH", status=0, severity=1)`; TIME_
carries `pack(">HHII", 0, 1, seconds, nanoseconds)` where the time stamp is
read from the clock (passed here as the `sec`/`ns` arguments; `pack(">I")`
raises for values outside u32); each scope adds its per-base padding or
limit blocks of zero bytes, and GR_FLOAT/GR_DOUBLE/CTRL_FLOAT/CTRL_DOUBLE
lead with `pack(">h", precision=8)`.  In the GR_DOUBLE branch the source
appends the *str* `"b\0"*(2+8+6*8)` (instead of the bytes `b"\0"*...`) to a
bytes object, which raises TypeError under Python 3: `none`. -/
def scope_header (sc : Scope) (b : Base) (sec ns : Nat) : Option (List Nat) :=
  match sc with
  | .plain => some []
  | .sts => some ([0, 0, 0, 1] ++
      (match b with
       | .bchar => [0] | .bdouble => List.replicate 4 0 | _ => []))
  | .time =>
    if sec < 2 ^ 32 ∧ ns < 2 ^ 32 then
      some ([0, 0, 0, 1] ++ be32 sec ++ be32 ns ++
        (match b with
         | .bshort => List.replicate 2 0 | .benum => List.replicate 2 0
         | .bchar => List.replicate 3 0 | .bdouble => List.replicate 4 0
         | _ => []))
    else none
  | .gr =>
    match b with
    | .bstring => some [0, 0, 0, 1]
    | .bshort => some ([0, 0, 0, 1] ++ List.replicate (8 + 6 * 2) 0)
    | .bfloat => some ([0, 0, 0, 1] ++ [0, 8] ++ List.replicate (2 + 8 + 6 * 4) 0)
    | .benum => some ([0, 0, 0, 1] ++ List.replicate (2 + 16 * 26) 0)
    | .bchar => some ([0, 0, 0, 1] ++ List.replicate (8 + 6 * 1 + 1) 0)
    | .blong => some ([0, 0, 0, 1] ++ List.replicate (8 + 6 * 4) 0)
    | .bdouble => none
  | .ctrl => some ([0, 0, 0, 1] ++
      (match b with
       | .bstring => []
       | .bshort => List.replicate (8 + 8 * 2) 0
       | .bfloat => [0, 8] ++ List.replicate (2 + 8 + 8 * 4) 0
       | .benum => List.replicate (2 + 16 * 26) 0
       | .bchar => List.replicate (8 + 8 * 1 + 1) 0
       | .blong => List.replicate (8 + 8 * 4) 0
       | .bdouble => [0, 8] ++ List.replicate (2 + 8 + 8 * 8) 0))

/-- Function `network_data(value, data_type)` of CA.py: scope header (with
the current time `sec`/`ns` for TIME_ scopes) followed by the encoded
elements; for a type code outside the table, `type_name` returns the bare
number, no suffix matches, and the fallback appends `tobytes(value)`
(`str(value).encode("UTF-8")`).  `none` models an exception (the GR_DOUBLE
str/bytes slip, or an out-of-range TIME_ time stamp). -/
def network_data (v : PyVal) (data_type : Nat) (sec ns : Nat) : Option (List Nat) :=
  match typeOfCode data_type with
  | none => some (utf8Bytes (str_of_val v))
  | some td => (scope_header td.1 td.2 sec ns).map (fun h => h ++ encode_elems td.2 v)

/-- Function `message(...)` of CA.py: assemble a CA frame.  With the default
`payload_size = 0` and a non-empty payload, the size is rounded up to a
multiple of 8 (`int(ceil(len(payload)/8.)*8)`, exact in this range); the
payload is padded with null bytes up to the size; the 16-byte header is
`pack(">HHHHII", ...)`, which raises (`none`) if any field is out of
range. -/
def message (command payload_size data_type data_count parameter1 parameter2 : Nat)
    (payload : List Nat) : Option (List Nat) :=
  let ps := if payload_size = 0 ∧ 0 < payload.length
            then (payload.length + 7) / 8 * 8 else payload_size
  if command < 2 ^ 16 ∧ ps < 2 ^ 16 ∧ data_type < 2 ^ 16 ∧ data_count < 2 ^ 16 ∧
     parameter1 < 2 ^ 32 ∧ parameter2 < 2 ^ 32 then
    some (be16 command ++ be16 ps ++ be16 data_type ++ be16 data_count ++
          be32 parameter1 ++ be32 parameter2 ++
          (payload ++ List.replicate (ps - payload.length) 0))
  else none

/-- Client-side per-PV state (`PV_info.__init__` of CA.py).  Time stamps are
abstracted to `Nat`; callbacks and writers are kept as opaque handles. -/
structure PV_info where
  connection_requested : Nat
  last_connection_requested : Nat
  connection_initiated : Nat
  servers_queried : List String
  addr : Option (String × Nat)
  channel_ID : Option Nat
  channel_SID : Option Nat
  data_type : Option Nat
  data_count : Option Nat
  access_bits : Option Nat
  IOID : Nat
  subscription_ID : Option Nat
  response_time : Nat
  data : Option (List Nat)
  last_updated : Nat
  write_data : Option PyVal
  write_requested : Nat
  write_sent : Nat
  write_confirmed : Nat
  callbacks : List Nat
  writers : List Nat
deriving DecidableEq, Repr

/-- `PV_info.__init__` of CA.py at creation time `t`: both connection
request stamps are set to `t`, everything else to the None/0/empty
defaults. -/
def PV_info.mk0 (t : Nat) : PV_info where
  connection_requested := t
  last_connection_requested := t
  connection_initiated := 0
  servers_queried := []
  addr := none
  channel_ID := none
  channel_SID := none
  data_type := none
  data_count := none
  access_bits := none
  IOID := 0
  subscription_ID := none
  response_time := 0
  data := none
  last_updated := 0
  write_data := none
  write_requested := 0
  write_sent := 0
  write_confirmed := 0
  callbacks := []
  writers := []

/-- `PV_info.reset` of CA.py ("Use if connection to IOC was lost"): clears
every transient field listed in the source, including `addr` and
`channel_ID`; the two connection-requested stamps, `callbacks` and
`writers` are not touched. -/
def reset (pv : PV_info) : PV_info :=
  { pv with
    connection_initiated := 0
    servers_queried := []
    addr := none
    channel_ID := none
    channel_SID := none
    data_type := none
    data_count := none
    access_bits := none
    IOID := 0
    subscription_ID := none
    response_time := 0
    data := none
    last_updated := 0
    write_data := none
    write_requested := 0
    write_sent := 0
    write_confirmed := 0 }

/-- Function `reset_PVs(addr)` of CA.py: reset every PV whose `addr` equals
the lost server's address.  The PV table is modelled as an association list
(name, state). -/
def reset_PVs (addr : String × Nat) (pvs : List (String × PV_info)) :
    List (String × PV_info) :=
  pvs.map (fun e => if e.2.addr = some addr then (e.1, reset e.2) else e)

/-- One PV's treatment in the SEARCH branch of `process_message` (CA.py):
for a PV whose `channel_ID` matches the reply, a duplicate reply (addr
already set) is ignored, otherwise `addr` is set to the reply's source IP
paired with the port carried in the `data_type` field and `response_time`
to the current time `t`.  (`PV_connect` is then called for the updated PV;
it performs network I/O only and mutates no further field here, since
`channel_ID` is already set.) -/
def search_step (ip : String) (port_number channel_ID t : Nat) :
    (String × PV_info) → (String × PV_info) :=
  fun e =>
    if e.2.channel_ID = some channel_ID then
      if e.2.addr ≠ none then e
      else (e.1, { e.2 with addr := some (ip, port_number), response_time := t })
    else e

/-- The SEARCH branch of `process_message` (CA.py) over the whole PV
table. -/
def process_SEARCH_reply (ip : String) (port_number channel_ID t : Nat)
    (pvs : List (String × PV_info)) : List (String × PV_info) :=
  pvs.map (search_step ip port_number channel_ID t)

/-- Function `new_subscription_ID()` of CA.py: the smallest integer from 1
upwards that is not currently used as a subscription ID. -/
def new_subscription_ID (pvs : List (String × PV_info)) : Nat :=
  let IDs := pvs.map (fun e => e.2.subscription_ID)
  (((List.range (pvs.length + 2)).drop 1).find? (fun i => ¬ some i ∈ IDs)).getD 0

/-- Loop body of the CREATE_CHAN branch of `process_message` (CA.py),
walking the table left to right as the Python for-loop over
`list(PVs.keys())` does (`done` is the already-visited prefix).  A PV whose
`channel_ID` matches but whose `channel_SID` is already set is a duplicate
reply and is skipped untouched; otherwise `addr`, `channel_SID`,
`data_type`, `data_count` and `response_time` are recorded, and
`PV_subscribe` immediately assigns a fresh `subscription_ID` when the PV has
none and its server connection is present (it also sends the EVENT_ADD
request — network I/O not modelled). -/
def ccLoop (conns : List (String × Nat)) (addr : String × Nat)
    (dt dc cid sid t : Nat) :
    List (String × PV_info) → List (String × PV_info) → List (String × PV_info)
  | done, [] => done
  | done, (n, pv) :: rest =>
    if pv.channel_ID = some cid ∧ pv.channel_SID = none then
      let pv1 : PV_info :=
        { pv with addr := some addr, channel_SID := some sid,
                  data_type := some dt, data_count := some dc, response_time := t }
      let fresh := new_subscription_ID (done ++ (n, pv1) :: rest)
      let pv2 : PV_info :=
        if pv1.subscription_ID = none ∧ pv1.channel_SID ≠ none ∧ addr ∈ conns then
          { pv1 with subscription_ID := some fresh }
        else pv1
      ccLoop conns addr dt dc cid sid t (done ++ [(n, pv2)]) rest
    else ccLoop conns addr dt dc cid sid t (done ++ [(n, pv)]) rest

/-- The CREATE_CHAN branch of `process_message` (CA.py) over the whole PV
table. -/
def process_CREATE_CHAN_reply (conns : List (String × Nat)) (addr : String × Nat)
    (dt dc cid sid t : Nat) (pvs : List (String × PV_info)) :
    List (String × PV_info) :=
  ccLoop conns addr dt dc cid sid t [] pvs

/-- Function `broadcast_addresses()` of CA.py.  The environment is passed as
an association list; `auto_derived` is the address list produced by
`broadcast_addresses_psutil()` (or its fallback), which enumerates the local
network interfaces — external I/O passed as a parameter.  The function
starts from an empty list, skips the auto-derivation exactly when
`EPICS_CA_AUTO_ADDR_LIST` is set to "NO", and deduplicates
(`list(set(...))`; the Python set iteration order is unspecified, so only
membership is meaningful).  `EPICS_CA_ADDR_LIST` is never consulted (the
module docstring lists its support under "To do"). -/
def broadcast_addresses (environ : List (String × String))
    (auto_derived : List String) : List String :=
  let addresses : List String :=
    if environ.lookup "EPICS_CA_AUTO_ADDR_LIST" = some "NO" then []
    else auto_derived
  addresses.dedup

end CA

namespace CAServer

/-- Function `value(data_type, data_count, payload)` of CAServer.py.
Identical to `CA.value` except that the STRING branch returns the raw byte
pieces without decoding them to `str`. -/
def value (data_type data_count : Nat) (payload : List Nat) : Option CAValue :=
  match typeOfCode data_type with
  | none => some (.vbytes payload)
  | some td =>
    let pl := payload.drop (header_size td.1 td.2)
    match td.2 with
    | .bstring =>
      let parts := (splitOnZero pl).take data_count
      some (if parts.length = 1 then .scalar (.ebytes (parts.headD []))
            else .vlist (parts.map CAElem.ebytes))
    | .bshort => decode_elems 2 dec_h data_count pl
    | .bfloat => decode_elems 4 dec_f data_count pl
    | .benum => decode_elems 2 dec_h data_count pl
    | .bchar => decode_elems 1 dec_b data_count pl
    | .blong => decode_elems 4 dec_i data_count pl
    | .bdouble => decode_elems 8 dec_d data_count pl

/-- Function `CA_type(value)` of CAServer.py: the CA data type code for a
Python value.  For a list the first element decides (an empty list counts
as the float 0.0, hence DOUBLE); strings map to STRING (0), ints and bools
to LONG (5).  (The numpy-scalar branches of the source are outside the
modelled value universe; a Python bool satisfies both the `numpy.bool` and
the `isint` test, LONG either way.) -/
def CA_type (v : PyVal) : Nat :=
  match v with
  | .plist [] => 6
  | .plist (x :: _) =>
    (match x with
     | .pstr _ => 0
     | .pint _ => 5
     | .pbool _ => 5)
  | .scalar x =>
    (match x with
     | .pstr _ => 0
     | .pint _ => 5
     | .pbool _ => 5)

/-- Function `CA_count(value)` of CAServer.py: number of elements (a string
counts as one element). -/
def CA_count : PyVal → Nat
  | .plist l => l.length
  | .scalar _ => 1

/-- The scope metadata header `CA_binary_data` (CAServer.py) prepends to the
payload.  Identical to the CA.py table except that the GR_DOUBLE branch is
written correctly here (`b"\0"*(2+8+6*8)`), so it produces bytes instead of
raising. -/
def scope_header (sc : Scope) (b : Base) (sec ns : Nat) : Option (List Nat) :=
  match sc with
  | .plain => some []
  | .sts => some ([0, 0, 0, 1] ++
      (match b with
       | .bchar => [0] | .bdouble => List.replicate 4 0 | _ => []))
  | .time =>
    if sec < 2 ^ 32 ∧ ns < 2 ^ 32 then
      some ([0, 0, 0, 1] ++ be32 sec ++ be32 ns ++
        (match b with
         | .bshort => List.replicate 2 0 | .benum => List.replicate 2 0
         | .bchar => List.replicate 3 0 | .bdouble => List.replicate 4 0
         | _ => []))
    else none
  | .gr => some ([0, 0, 0, 1] ++
      (match b with
       | .bstring => []
       | .bshort => List.replicate (8 + 6 * 2) 0
       | .bfloat => [0, 8] ++ List.replicate (2 + 8 + 6 * 4) 0
       | .benum => List.replicate (2 + 16 * 26) 0
       | .bchar => List.replicate (8 + 6 * 1 + 1) 0
       | .blong => List.replicate (8 + 6 * 4) 0
       | .bdouble => [0, 8] ++ List.replicate (2 + 8 + 6 * 8) 0))
  | .ctrl => some ([0, 0, 0, 1] ++
      (match b with
       | .bstring => []
       | .bshort => List.replicate (8 + 8 * 2) 0
       | .bfloat => [0, 8] ++ List.replicate (2 + 8 + 8 * 4) 0
       | .benum => List.replicate (2 + 16 * 26) 0
       | .bchar => List.replicate (8 + 8 * 1 + 1) 0
       | .blong => List.replicate (8 + 8 * 4) 0
       | .bdouble => [0, 8] ++ List.replicate (2 + 8 + 8 * 8) 0))

/-- Function `CA_binary_data(value, data_type)` of CAServer.py: scope header
followed by the encoded elements.  For a type code outside the table no
suffix matches and the fallback executes `payload += str(value)`, which
concatenates a `str` to a `bytes` object and raises TypeError under
Python 3 (`none`). -/
def CA_binary_data (v : PyVal) (data_type : Nat) (sec ns : Nat) : Option (List Nat) :=
  match typeOfCode data_type with
  | none => none
  | some td => (scope_header td.1 td.2 sec ns).map (fun h => h ++ encode_elems td.2 v)

/-- Function `message(...)` of CAServer.py (the command-name-to-code dict
lookup is resolved by the caller here).  Unlike the CA.py copy, this one
does *not* convert a str payload to bytes, and its `payload` parameter
defaults to the *str* `""`: a call that omits the payload (modelled as
`none`) reaches `message = header + payload` with a str and raises
TypeError under the declared Python 3.  For a bytes payload (`some pl`)
the body computes exactly what CA.py's `message` computes. -/
def message (command payload_size data_type data_count parameter1 parameter2 : Nat)
    (payload : Option (List Nat)) : Option (List Nat) :=
  match payload with
  | none => none
  | some pl =>
    let ps := if payload_size = 0 ∧ 0 < pl.length
              then (pl.length + 7) / 8 * 8 else payload_size
    if command < 2 ^ 16 ∧ ps < 2 ^ 16 ∧ data_type < 2 ^ 16 ∧ data_count < 2 ^ 16 ∧
       parameter1 < 2 ^ 32 ∧ parameter2 < 2 ^ 32 then
      some (be16 command ++ be16 ps ++ be16 data_type ++ be16 data_count ++
            be32 parameter1 ++ be32 parameter2 ++
            (pl ++ List.replicate (ps - pl.length) 0))
    else none

/-- Class `subscriber_info` of CAServer.py: what the server records for each
subscribed client when it processes an EVENT_ADD request (the client's
subscription ID and its requested data type and count). -/
structure subscriber_info where
  subscription_ID : Option Nat
  data_type : Option Nat
  data_count : Option Nat
deriving DecidableEq, Repr

/-- A client address: (IP, TCP port). -/
def Addr := String × Nat
deriving instance DecidableEq, Repr for Addr

/-- Loop body of `notify_subscribers_of_value` (CAServer.py) over the
subscriber map (modelled as an association list).  Per subscriber: skip if
the subscription ID is unset or the client's connection is gone; otherwise
*overwrite* the recorded `data_type`/`data_count` with `CA_type(value)` /
`CA_count(value)`, re-encode the value in that derived type and send
`message("EVENT_ADD", 0, data_type, data_count, status_code=1,
subscription_ID, data)`.  Returns the updated subscriber records and the
frames sent; `none` models an exception escaping the loop (never reached
for the in-range inputs the theorems use).  The source's initial
`if not address in PV.subscribers: continue` re-check is vacuous here. -/
def notify_go (conns : List Addr) (val : PyVal) (sec ns : Nat) :
    List (Addr × subscriber_info) →
    Option (List (Addr × subscriber_info) × List (Addr × List Nat))
  | [] => some ([], [])
  | (a, s) :: rest =>
    if s.subscription_ID = none then
      (notify_go conns val sec ns rest).map (fun r => ((a, s) :: r.1, r.2))
    else if a ∈ conns then
      let dt := CA_type val
      let dc := CA_count val
      let s2 : subscriber_info := { s with data_type := some dt, data_count := some dc }
      match CA_binary_data val dt sec ns with
      | none => none
      | some data =>
        match message 1 0 dt dc 1 (s.subscription_ID.getD 0) (some data) with
        | none => none
        | some frame =>
          (notify_go conns val sec ns rest).map
            (fun r => ((a, s2) :: r.1, (a, frame) :: r.2))
    else
      (notify_go conns val sec ns rest).map (fun r => ((a, s) :: r.1, r.2))

/-- Function `notify_subscribers_of_value(PV_name, value)` of CAServer.py,
for a PV present in the table: nothing happens when the value is None,
otherwise the subscriber loop runs (see `notify_go`). -/
def notify_subscribers_of_value (subs : List (Addr × subscriber_info))
    (conns : List Addr) (v : Option PyVal) (sec ns : Nat) :
    Option (List (Addr × subscriber_info) × List (Addr × List Nat)) :=
  match v with
  | none => some (subs, [])
  | some val => notify_go conns val sec ns subs

/-- Python `bytes.rstrip(b"\0")`: drop trailing null bytes (how the SEARCH
handler recovers the channel name from the padded payload). -/
def rstripZeros (l : List Nat) : List Nat :=
  (l.reverse.dropWhile (· = 0)).reverse

/-- The SEARCH branch of `process_message` (CAServer.py).  `pvExists` stands
for `PV_exists`, which delegates to the PV providers; `tcpPort` is the
module global `TCP_port_number`, set by `start_server` to the TCP port it
actually bound.  The header fields of the request give `reply_flag`
(data_type), `minor_version` (data_count) and `channel_CID` (parameter1).
The result distinguishes the three outcomes of the branch:
`some (some frame)` — a reply frame is returned; `some none` — the branch
falls through and returns None (no reply); `none` — the branch raises.
If the PV exists the reply is `message("SEARCH", 8, TCP_port_number, 0,
0xffffffff, channel_CID, CA_binary_data(minor_version, SHORT))`, with a
bytes payload.  If it does not exist and `reply_flag == 10`, the source
calls `message("NOT_FOUND", 0, reply_flag, minor_version, channel_CID,
channel_CID)` *without* a payload argument, so `message` runs on its
default str payload `""` and raises TypeError under Python 3 — no
NOT_FOUND frame is ever produced.  Otherwise None is returned. -/
def process_message_SEARCH (pvExists : List Nat → Bool) (tcpPort : Nat)
    (data_type data_count parameter1 : Nat) (payload : List Nat) :
    Option (Option (List Nat)) :=
  let reply_flag := data_type
  let minor_version := data_count
  let channel_CID := parameter1
  let channel_name := rstripZeros payload
  if pvExists channel_name then
    match CA_binary_data (.scalar (.pint minor_version)) 1 0 0 with
    | none => none
    | some data =>
      match message 6 8 tcpPort 0 4294967295 channel_CID (some data) with
      | none => none
      | some m => some (some m)
  else if reply_flag = 10 then
    match message 14 0 reply_flag minor_version channel_CID channel_CID none with
    | none => none
    | some m => some (some m)
  else some none

end CAServer

/-- Does the numpy conversion at the heart of `to(value, dtype)` raise for
this scalar and the element dtype of this base (int16 for SHORT/ENUM, int8
for CHAR, int32 for LONG, float32 for FLOAT, float64 for DOUBLE)?  This is
the "cannot be converted" condition of the error-handling contract. -/
def conv_fails (b : Base) (x : PyScalar) : Bool :=
  match b with
  | .bstring => false
  | .bshort => (npConvertI 16 x).isNone
  | .benum => (npConvertI 16 x).isNone
  | .bchar => (npConvertI 8 x).isNone
  | .blong => (npConvertI 32 x).isNone
  | .bfloat => (npConvertF 23 8 x).isNone
  | .bdouble => (npConvertF 52 11 x).isNone

/-- Concrete client PV used as example input: a fully discovered, connected
and subscribed PV with non-trivial observer lists. -/
def examplePV : CA.PV_info :=
  { CA.PV_info.mk0 3 with
    addr := some ("10.0.0.2", 5064)
    channel_ID := some 42
    channel_SID := some 9
    data_type := some 19
    data_count := some 1
    subscription_ID := some 4
    data := some [0, 0, 0, 7]
    last_updated := 11
    callbacks := [101]
    writers := [202] }

/-- Concrete subscriber address used as example input. -/
def exampleAddr : CAServer.Addr := ("10.0.0.1", 34567)

/-- Concrete server-side subscriber record used as example input: the client
asked for TIME_LONG (type code 19), one element, under subscription ID
33. -/
def exampleSub : CAServer.subscriber_info :=
  { subscription_ID := some 33, data_type := some 19, data_count := some 1 }

/-- The EVENT_ADD frame the fanout actually sends to `exampleSub` for the
int value 7: command 1, payload size 8, data_type 5 (LONG — derived from
the value, not the requested 19), data_count 1, status 1, subscription ID
33, the 4-byte big-endian value 7, zero-padded. -/
def exampleFrame : List Nat :=
  [0, 1, 0, 8, 0, 5, 0, 1, 0, 0, 0, 1, 0, 0, 0, 33, 0, 0, 0, 7, 0, 0, 0, 0]

/-- Effective payload size a `message` call settles on (the
`if payload_size == 0 and len(payload) > 0` recomputation). -/
def eff_ps (payload_size plen : Nat) : Nat :=
  if payload_size = 0 ∧ 0 < plen then (plen + 7) / 8 * 8 else payload_size

/-- Any successfully assembled frame is the 16-byte big-endian header
followed by the null-padded payload, and the header fields read back as the
arguments. -/
theorem message_fields {c ps dt dc p1 p2 : Nat} {pl m : List Nat}
    (h : CA.message c ps dt dc p1 p2 pl = some m) :
    readBE16 m 0 = c ∧ readBE16 m 2 = eff_ps ps pl.length ∧
    readBE16 m 4 = dt ∧ readBE16 m 6 = dc ∧
    readBE32 m 8 = p1 ∧ readBE32 m 12 = p2 ∧
    m.drop 16 = pl ++ List.replicate (eff_ps ps pl.length - pl.length) 0 ∧
    m.length = 16 + max (eff_ps ps pl.length) pl.length := by
  rw [CA.message] at h
  rw [show (if ps = 0 ∧ 0 < pl.length then (pl.length + 7) / 8 * 8 else ps) =
        eff_ps ps pl.length from rfl] at h
  split at h
  · rename_i hb
    obtain ⟨h1, h2, h3, h4, h5, h6⟩ := hb
    have hm : _ = m := Option.some.inj h
    subst hm
    refine ⟨?_, ?_, ?_, ?_, ?_, ?_, ?_, ?_⟩
    · simp [readBE16, byteAt, be16, be32]; omega
    · simp [readBE16, byteAt, be16, be32]; omega
    · simp [readBE16, byteAt, be16, be32]; omega
    · simp [readBE16, byteAt, be16, be32]; omega
    · simp [readBE32, byteAt, be16, be32]; omega
    · simp [readBE32, byteAt, be16, be32]; omega
    · simp [be16, be32, List.drop]
    · simp [be16, be32, List.length_append, List.length_replicate]; omega
  · exact absurd h (by simp)

/-- C6 (confirmed): for every payload byte string, every frame assembled by
message() with the default payload_size of 0 has total length exactly
16 + ceil(len(payload)/8)*8 bytes — a multiple of 8 and at least 16 — and
the payload is zero-padded on the wire; for every byte-string payload (the
claim's domain) the CAServer.py copy of message() computes the identical
frame.  (The header fields must fit their struct formats, and the padded
size its u16 field, or `pack` raises.) -/
theorem message_default_framing (c dt dc p1 p2 : Nat) (pl : List Nat)
    (hc : c < 2 ^ 16) (hdt : dt < 2 ^ 16) (hdc : dc < 2 ^ 16)
    (hp1 : p1 < 2 ^ 32) (hp2 : p2 < 2 ^ 32) (hlen : pl.length ≤ 65528) :
    ∃ m, CA.message c 0 dt dc p1 p2 pl = some m ∧
      m.length = 16 + (pl.length + 7) / 8 * 8 ∧
      m.length % 8 = 0 ∧ 16 ≤ m.length ∧
      m.drop (16 + pl.length) =
        List.replicate ((pl.length + 7) / 8 * 8 - pl.length) 0 ∧
      (∀ (c2 ps2 dt2 dc2 p12 p22 : Nat) (pl2 : List Nat),
        CAServer.message c2 ps2 dt2 dc2 p12 p22 (some pl2)
          = CA.message c2 ps2 dt2 dc2 p12 p22 pl2) := by
  have hdm := Nat.div_add_mod (pl.length + 7) 8
  have hmod := Nat.mod_lt (pl.length + 7) (show 0 < 8 by norm_num)
  have heff : eff_ps 0 pl.length = (pl.length + 7) / 8 * 8 := by
    unfold eff_ps
    split
    · rfl
    · rename_i hcond
      simp only [true_and, not_lt, Nat.le_zero] at hcond
      have h0 : pl.length = 0 := by omega
      rw [h0]
  have hge : pl.length ≤ (pl.length + 7) / 8 * 8 := by omega
  have hlt : (pl.length + 7) / 8 * 8 < 2 ^ 16 := by norm_num; omega
  have hsome : ∃ m, CA.message c 0 dt dc p1 p2 pl = some m := by
    rw [CA.message]
    rw [show (if (0 : Nat) = 0 ∧ 0 < pl.length then (pl.length + 7) / 8 * 8 else 0) =
          eff_ps 0 pl.length from rfl, heff]
    rw [if_pos ⟨hc, hlt, hdt, hdc, hp1, hp2⟩]
    exact ⟨_, rfl⟩
  obtain ⟨m, hm⟩ := hsome
  have hf := message_fields hm
  rw [heff] at hf
  refine ⟨m, hm, ?_, ?_, ?_, ?_, fun c2 ps2 dt2 dc2 p12 p22 pl2 => rfl⟩
  · rw [hf.2.2.2.2.2.2.2]; omega
  · rw [hf.2.2.2.2.2.2.2]; omega
  · rw [hf.2.2.2.2.2.2.2]; omega
  · have hdrop : m.drop (16 + pl.length) = (m.drop 16).drop pl.length := by
      rw [List.drop_drop, Nat.add_comm]
    rw [hdrop, hf.2.2.2.2.2.2.1]
    exact List.drop_left pl _

/-- C6 witness: a concrete 3-byte payload gives a 24-byte frame padded with
five null bytes. -/
theorem message_default_framing_witness :
    ∃ m, CA.message 1 0 6 1 0 0 [1, 2, 3] = some m ∧
      m.length = 16 + (([1, 2, 3] : List Nat).length + 7) / 8 * 8 ∧
      m.length % 8 = 0 ∧ 16 ≤ m.length ∧
      m.drop (16 + ([1, 2, 3] : List Nat).length) =
        List.replicate ((([1, 2, 3] : List Nat).length + 7) / 8 * 8 -
          ([1, 2, 3] : List Nat).length) 0 ∧
      (∀ (c2 ps2 dt2 dc2 p12 p22 : Nat) (pl2 : List Nat),
        CAServer.message c2 ps2 dt2 dc2 p12 p22 (some pl2)
          = CA.message c2 ps2 dt2 dc2 p12 p22 pl2) :=
  message_default_framing 1 6 1 0 0 [1, 2, 3] (by norm_num) (by norm_num)
    (by norm_num) (by norm_num) (by norm_num) (by norm_num)

/-- Round trip of a u16 through numpy int16 wrapping and two's-complement
packing: for an in-range wire field the packed bytes are the field
itself. -/
theorem intBits_wrapS16 (n : Nat) (h : n < 65536) :
    intBits (wrapS (n : Int) 16) 16 = n := by
  unfold intBits wrapS
  norm_num
  omega

/-- C8 (code_bug): for every SEARCH request received by the server, the
found half of the claim holds — if `PV_exists(name)` the reply is a SEARCH
frame whose data_type field is the bound TCP port, parameter1 0xFFFFFFFF,
parameter2 the client's channel_CID, 24 bytes long with the big-endian i16
minor_version leading the 8-byte payload.  The NOT_FOUND half does not:
when the PV does not exist and reply_flag = 10, the source calls
`message("NOT_FOUND", ...)` with its default *str* payload `""`, and
CAServer.py's `message` (which, unlike CA.py's, never converts a str
payload to bytes) raises TypeError at `header + payload` under the declared
Python 3 — the branch raises (`none`) instead of returning the claimed
NOT_FOUND frame; with any other reply_flag it returns None (no reply), as
claimed.  (The wire fields reply_flag, minor_version are u16 and
channel_CID u32 by construction; the bound TCP port fits u16.) -/
theorem server_search_reply_contract (pvExists : List Nat → Bool)
    (tcpPort rf mv cid : Nat) (payload : List Nat)
    (hport : tcpPort < 2 ^ 16) (hrf : rf < 2 ^ 16) (hmv : mv < 2 ^ 16)
    (hcid : cid < 2 ^ 32) :
    (pvExists (CAServer.rstripZeros payload) = true →
      ∃ m, CAServer.process_message_SEARCH pvExists tcpPort rf mv cid payload
            = some (some m) ∧
        readBE16 m 0 = 6 ∧ readBE16 m 4 = tcpPort ∧
        readBE32 m 8 = 4294967295 ∧ readBE32 m 12 = cid ∧
        m.length = 24 ∧ (m.drop 16).take 2 = be16 mv) ∧
    (pvExists (CAServer.rstripZeros payload) = false →
      (rf = 10 →
        CAServer.process_message_SEARCH pvExists tcpPort rf mv cid payload
          = none) ∧
      (rf ≠ 10 →
        CAServer.process_message_SEARCH pvExists tcpPort rf mv cid payload
          = some none)) := by
  constructor
  · intro hex
    have hconv : npConvertI 16 (.pint (mv : Int)) = some (wrapS (mv : Int) 16) := by
      rw [show npConvertI 16 (.pint (mv : Int))
            = (if -(2 ^ 63) ≤ (mv : Int) ∧ (mv : Int) < 2 ^ 63
               then some (wrapS (mv : Int) 16) else none) from rfl]
      rw [if_pos]
      constructor
      · exact le_trans (by norm_num) (Int.natCast_nonneg mv)
      · calc (mv : Int) < 2 ^ 16 := by exact_mod_cast hmv
          _ ≤ 2 ^ 63 := by norm_num
    have hdata : CAServer.CA_binary_data (.scalar (.pint (mv : Int))) 1 0 0
        = some (be16 (intBits (wrapS (mv : Int) 16) 16)) := by
      rw [show CAServer.CA_binary_data (.scalar (.pint (mv : Int))) 1 0 0
            = some ([] ++ be16 (intBits (to_int 16 (.pint (mv : Int))) 16))
            from rfl]
      rw [to_int, hconv]
      simp
    have hlen2 : (be16 (intBits (wrapS (mv : Int) 16) 16)).length = 2 := rfl
    have hsome : ∃ m, CA.message 6 8 tcpPort 0 4294967295 cid
        (be16 (intBits (wrapS (mv : Int) 16) 16)) = some m := by
      rw [CA.message]
      rw [show (if (8 : Nat) = 0 ∧
            0 < (be16 (intBits (wrapS (mv : Int) 16) 16)).length
          then ((be16 (intBits (wrapS (mv : Int) 16) 16)).length + 7) / 8 * 8
          else 8) = 8 from rfl]
      rw [if_pos ⟨by norm_num, by norm_num, hport, by norm_num, by norm_num, hcid⟩]
      exact ⟨_, rfl⟩
    obtain ⟨m, hm⟩ := hsome
    have hf := message_fields hm
    have heff : eff_ps 8 (be16 (intBits (wrapS (mv : Int) 16) 16)).length = 8 := rfl
    rw [heff] at hf
    refine ⟨m, ?_, hf.1, hf.2.2.1, hf.2.2.2.2.1, hf.2.2.2.2.2.1, ?_, ?_⟩
    · rw [CAServer.process_message_SEARCH]
      rw [if_pos hex, hdata]
      dsimp only
      rw [show CAServer.message 6 8 tcpPort 0 4294967295 cid
            (some (be16 (intBits (wrapS (mv : Int) 16) 16)))
          = CA.message 6 8 tcpPort 0 4294967295 cid
            (be16 (intBits (wrapS (mv : Int) 16) 16)) from rfl]
      rw [hm]
    · rw [hf.2.2.2.2.2.2.2, hlen2]
      rfl
    · rw [hf.2.2.2.2.2.2.1]
      rw [show (8 : Nat) - (be16 (intBits (wrapS (mv : Int) 16) 16)).length = 6
            from rfl]
      rw [show (2 : Nat) = (be16 (intBits (wrapS (mv : Int) 16) 16)).length
            from rfl]
      rw [List.take_left, intBits_wrapS16 mv hmv]
  · intro hnex
    constructor
    · intro hrf10
      rw [CAServer.process_message_SEARCH]
      rw [if_neg (by rw [hnex]; exact Bool.false_ne_true), if_pos hrf10]
      rfl
    · intro hrfne
      rw [CAServer.process_message_SEARCH]
      rw [if_neg (by rw [hnex]; exact Bool.false_ne_true), if_neg hrfne]

/-- C8 witness: a concrete found SEARCH yielding the claimed frame, the
concrete raising NOT_FOUND case, and a concrete silent miss. -/
theorem server_search_reply_contract_witness :
    (∃ m, CAServer.process_message_SEARCH (fun _ => true) 5064 5 11 3 [84, 0, 0]
          = some (some m) ∧
      readBE16 m 0 = 6 ∧ readBE16 m 4 = 5064 ∧
      readBE32 m 8 = 4294967295 ∧ readBE32 m 12 = 3 ∧
      m.length = 24 ∧ (m.drop 16).take 2 = be16 11) ∧
    CAServer.process_message_SEARCH (fun _ => false) 5064 10 11 3 [84, 0, 0]
      = none ∧
    CAServer.process_message_SEARCH (fun _ => false) 5064 5 11 3 [84, 0, 0]
      = some none := by
  refine ⟨?_, ?_, ?_⟩
  · exact (server_search_reply_contract (fun _ => true) 5064 5 11 3 [84, 0, 0]
      (by norm_num) (by norm_num) (by norm_num) (by norm_num)).1 rfl
  · exact ((server_search_reply_contract (fun _ => false) 5064 10 11 3 [84, 0, 0]
      (by norm_num) (by norm_num) (by norm_num) (by norm_num)).2 rfl).1 rfl
  · exact ((server_search_reply_contract (fun _ => false) 5064 5 11 3 [84, 0, 0]
      (by norm_num) (by norm_num) (by norm_num) (by norm_num)).2 rfl).2
      (by norm_num)

/-- C1 (code_bug): the encode-then-decode round trip cannot hold at
T = GR_DOUBLE (type code 27): the GR_DOUBLE branch of `network_data`
appends the *str* `"b\0"*(2+8+6*8)` — a typo for the bytes `b"\0"*...` used
by every sibling branch and by the CAServer.py copy — to a bytes payload,
so under the declared Python 3 the call raises TypeError for every value
before any data is produced (under Python 2 it would splice a malformed
116-byte header instead). -/
theorem network_data_GR_DOUBLE_raises (v : PyVal) (sec ns : Nat) :
    CA.network_data v 27 sec ns = none := rfl

/-- C7 (code_bug): under the declared Python 3, a declared `data_count`
exceeding the available payload makes the decoder raise instead of
clamping: `value(SHORT, 5, b"\x00\x01")` computes
`data_count = max(len(payload)/2, 1) = 1.0` (a float) and `bytes.ljust`
then raises TypeError, in both CA.py and CAServer.py (under Python 2
integer division the clamp works as specified).  The unknown-type half of
the claim does hold: an unknown type code decodes as opaque bytes. -/
theorem value_clamp_raises_and_unknown_bytes :
    CA.value 1 5 [0, 1] = none ∧ CAServer.value 1 5 [0, 1] = none ∧
    CA.value 99 7 [1, 2, 3] = some (.vbytes [1, 2, 3]) ∧
    CAServer.value 99 7 [1, 2, 3] = some (.vbytes [1, 2, 3]) :=
  ⟨rfl, rfl, rfl, rfl⟩

/-- C9 counterexample: the string "abc" cannot be converted to float64, yet
the client encoder at T = GR_DOUBLE (27) raises (returns no payload at all)
instead of emitting the zero value of the base. -/
theorem network_data_unconvertible_GR_DOUBLE_cex :
    npConvertF 52 11 (.pstr "abc") = none ∧
    CA.network_data (.scalar (.pstr "abc")) 27 0 0 = none :=
  ⟨by decide, rfl⟩

/-- C3 counterexample: the claim says a TCP-loss reset leaves `channel_CID`
unchanged, but `PV_info.reset` sets `channel_ID = None`: a PV with CID 42
loses it. -/
theorem reset_clears_channel_ID_cex :
    examplePV.channel_ID = some 42 ∧
    (CA.reset_PVs ("10.0.0.2", 5064) [("P", examplePV)]).map
      (fun e => e.2.channel_ID) = [none] :=
  ⟨rfl, rfl⟩

/-- C3 (corrected): for every PV whose `addr` matches the lost connection,
`reset_PVs` replaces it in place by `reset` of it, which clears not only
`channel_SID`, `subscription_ID` and the cached value (`data`,
`last_updated`) but also `addr`, `channel_ID` (the CID), `data_type`,
`data_count`, `access_bits`, `IOID`, `servers_queried` and the
response/write bookkeeping; the PV's name (the table key), its
`callbacks` and `writers` observer lists and the two connection-requested
stamps are preserved.  PVs with a different `addr` are untouched. -/
theorem reset_PVs_effect (a : String × Nat) (pvs : List (String × CA.PV_info))
    (i : Nat) (n : String) (pv : CA.PV_info) (hi : pvs[i]? = some (n, pv)) :
    (pv.addr = some a →
      (CA.reset_PVs a pvs)[i]? = some (n, CA.reset pv) ∧
      (CA.reset pv).channel_SID = none ∧ (CA.reset pv).subscription_ID = none ∧
      (CA.reset pv).data = none ∧ (CA.reset pv).last_updated = 0 ∧
      (CA.reset pv).addr = none ∧ (CA.reset pv).channel_ID = none ∧
      (CA.reset pv).data_type = none ∧ (CA.reset pv).data_count = none ∧
      (CA.reset pv).access_bits = none ∧ (CA.reset pv).IOID = 0 ∧
      (CA.reset pv).callbacks = pv.callbacks ∧
      (CA.reset pv).writers = pv.writers ∧
      (CA.reset pv).connection_requested = pv.connection_requested ∧
      (CA.reset pv).last_connection_requested = pv.last_connection_requested) ∧
    (pv.addr ≠ some a → (CA.reset_PVs a pvs)[i]? = some (n, pv)) := by
  constructor
  · intro ha
    refine ⟨?_, rfl, rfl, rfl, rfl, rfl, rfl, rfl, rfl, rfl, rfl, rfl, rfl, rfl, rfl⟩
    rw [CA.reset_PVs, List.getElem?_map, hi]
    simp [ha]
  · intro ha
    rw [CA.reset_PVs, List.getElem?_map, hi]
    simp [ha]

/-- C3 witness: the example PV (addr set, CID 42, one callback and one
writer) is reset in place with the observer lists intact. -/
theorem reset_PVs_effect_witness :
    (CA.reset_PVs ("10.0.0.2", 5064) [("P", examplePV)])[0]?
      = some ("P", CA.reset examplePV) ∧
    (CA.reset examplePV).channel_SID = none ∧
    (CA.reset examplePV).channel_ID = none ∧
    (CA.reset examplePV).callbacks = examplePV.callbacks := by
  have h := (reset_PVs_effect ("10.0.0.2", 5064) [("P", examplePV)] 0 "P"
    examplePV rfl).1 rfl
  exact ⟨h.1, h.2.1, h.2.2.2.2.2.2.1, h.2.2.2.2.2.2.2.2.2.2.2.1⟩

/-- C4 counterexample: with `EPICS_CA_ADDR_LIST = "10.0.0.255"` set (and the
auto-derivation untouched), the returned broadcast set is just the
auto-derived addresses — the variable's entry is not included, because
`broadcast_addresses` never reads `EPICS_CA_ADDR_LIST`. -/
theorem broadcast_addresses_ignores_addr_list_cex :
    CA.broadcast_addresses [("EPICS_CA_ADDR_LIST", "10.0.0.255")]
      ["192.168.1.255"] = ["192.168.1.255"] ∧
    ¬ ("10.0.0.255" ∈ CA.broadcast_addresses
      [("EPICS_CA_ADDR_LIST", "10.0.0.255")] ["192.168.1.255"]) := by
  refine ⟨rfl, ?_⟩
  intro h
  rw [show CA.broadcast_addresses [("EPICS_CA_ADDR_LIST", "10.0.0.255")]
    ["192.168.1.255"] = ["192.168.1.255"] from rfl] at h
  simp at h

/-- C4 (corrected): `broadcast_addresses()` ignores `EPICS_CA_ADDR_LIST`
entirely (its support is a "To do" note in the module docstring): the result
is the deduplicated auto-derived interface addresses, or the empty list when
`EPICS_CA_AUTO_ADDR_LIST` is set to NO — in which case nothing at all
remains, not the `EPICS_CA_ADDR_LIST` entries the spec promises. -/
theorem broadcast_addresses_env_behaviour (environ : List (String × String))
    (derived : List String) :
    (environ.lookup "EPICS_CA_AUTO_ADDR_LIST" = some "NO" →
      CA.broadcast_addresses environ derived = []) ∧
    (environ.lookup "EPICS_CA_AUTO_ADDR_LIST" ≠ some "NO" →
      ∀ x, x ∈ CA.broadcast_addresses environ derived ↔ x ∈ derived) ∧
    (∀ al, CA.broadcast_addresses (("EPICS_CA_ADDR_LIST", al) :: environ) derived
      = CA.broadcast_addresses environ derived) := by
  refine ⟨?_, ?_, ?_⟩
  · intro h
    rw [CA.broadcast_addresses, if_pos h]
    rfl
  · intro h x
    rw [CA.broadcast_addresses, if_neg h]
    exact List.mem_dedup
  · intro al
    rw [CA.broadcast_addresses, CA.broadcast_addresses]
    rw [show (("EPICS_CA_ADDR_LIST", al) :: environ).lookup "EPICS_CA_AUTO_ADDR_LIST"
      = environ.lookup "EPICS_CA_AUTO_ADDR_LIST" by simp [List.lookup]]

/-- C4 witness: with auto-derivation suppressed the result is empty even
though `EPICS_CA_ADDR_LIST` is set. -/
theorem broadcast_addresses_env_behaviour_witness :
    CA.broadcast_addresses
      [("EPICS_CA_AUTO_ADDR_LIST", "NO"), ("EPICS_CA_ADDR_LIST", "10.0.0.255")]
      ["192.168.1.255"] = [] :=
  (broadcast_addresses_env_behaviour
    [("EPICS_CA_AUTO_ADDR_LIST", "NO"), ("EPICS_CA_ADDR_LIST", "10.0.0.255")]
    ["192.168.1.255"]).1 rfl

/-- C9 (corrected): whenever the numpy conversion of a scalar input to the
base's element dtype raises, `to` substitutes the zero value of the base (0
for the integer bases, 0.0 — all-zero bits — for the float bases) and the
encoder emits exactly the scope header followed by the zero element, without
raising.  The one exception is the client-side `network_data` at GR_DOUBLE
(type 27), whose header construction raises for every input (the C1 slip);
the equations below cover that case too, both sides being `none` there. -/
theorem to_substitutes_zero (x : PyScalar) (dt : Nat) (sc : Scope) (b : Base)
    (sec ns : Nat) (htd : typeOfCode dt = some (sc, b)) (hb : b ≠ .bstring)
    (hconv : conv_fails b x = true) :
    CAServer.CA_binary_data (.scalar x) dt sec ns =
      (CAServer.scope_header sc b sec ns).map (fun h => h ++ zero_elem_bytes b) ∧
    CA.network_data (.scalar x) dt sec ns =
      (CA.scope_header sc b sec ns).map (fun h => h ++ zero_elem_bytes b) := by
  have henc : encode_elems b (.scalar x) = zero_elem_bytes b := by
    cases b with
    | bstring => exact absurd rfl hb
    | bshort =>
      have h0 : npConvertI 16 x = none := by
        simpa [conv_fails, Option.isNone_iff_eq_none] using hconv
      simp only [encode_elems, encNum, to_int, h0, Option.getD_none]
      rfl
    | benum =>
      have h0 : npConvertI 16 x = none := by
        simpa [conv_fails, Option.isNone_iff_eq_none] using hconv
      simp only [encode_elems, encNum, to_int, h0, Option.getD_none]
      rfl
    | bchar =>
      have h0 : npConvertI 8 x = none := by
        simpa [conv_fails, Option.isNone_iff_eq_none] using hconv
      simp only [encode_elems, encNum, to_int, h0, Option.getD_none]
      rfl
    | blong =>
      have h0 : npConvertI 32 x = none := by
        simpa [conv_fails, Option.isNone_iff_eq_none] using hconv
      simp only [encode_elems, encNum, to_int, h0, Option.getD_none]
      rfl
    | bfloat =>
      have h0 : npConvertF 23 8 x = none := by
        simpa [conv_fails, Option.isNone_iff_eq_none] using hconv
      simp only [encode_elems, encNum, to_float_bits, h0, Option.getD_none]
      rfl
    | bdouble =>
      have h0 : npConvertF 52 11 x = none := by
        simpa [conv_fails, Option.isNone_iff_eq_none] using hconv
      simp only [encode_elems, encNum, to_float_bits, h0, Option.getD_none]
      rfl
  constructor
  · rw [CAServer.CA_binary_data, htd]
    dsimp only
    rw [henc]
  · rw [CA.network_data, htd]
    dsimp only
    rw [henc]

/-- C9 witness: the unconvertible string "abc" sent as a plain SHORT is
encoded as the two zero bytes of the SHORT zero value, by both encoders. -/
theorem to_substitutes_zero_witness :
    conv_fails .bshort (.pstr "abc") = true ∧
    CAServer.CA_binary_data (.scalar (.pstr "abc")) 1 0 0 =
      (CAServer.scope_header .plain .bshort 0 0).map
        (fun h => h ++ zero_elem_bytes .bshort) ∧
    CA.network_data (.scalar (.pstr "abc")) 1 0 0 =
      (CA.scope_header .plain .bshort 0 0).map
        (fun h => h ++ zero_elem_bytes .bshort) := by
  have h := to_substitutes_zero (.pstr "abc") 1 .plain .bshort 0 0 rfl
    (by decide) (by decide)
  exact ⟨by decide, h.1, h.2⟩

/-- Every frame produced by the subscriber loop of
`notify_subscribers_of_value` carries, in its header, command EVENT_ADD (1),
the data type and count derived from the value itself, and status code 1. -/
theorem notify_go_fields (conns : List CAServer.Addr) (val : PyVal)
    (sec ns : Nat) :
    ∀ (subs subs2 : List (CAServer.Addr × CAServer.subscriber_info))
      (frames : List (CAServer.Addr × List Nat)),
      CAServer.notify_go conns val sec ns subs = some (subs2, frames) →
      ∀ af ∈ frames,
        readBE16 af.2 0 = 1 ∧
        readBE16 af.2 4 = CAServer.CA_type val ∧
        readBE16 af.2 6 = CAServer.CA_count val ∧
        readBE32 af.2 8 = 1 := by
  intro subs
  induction subs with
  | nil =>
    intro subs2 frames h af haf
    simp only [CAServer.notify_go, Option.some.injEq, Prod.mk.injEq] at h
    rw [← h.2] at haf
    exact absurd haf (List.not_mem_nil af)
  | cons hd tl ih =>
    intro subs2 frames h af haf
    obtain ⟨a, s⟩ := hd
    rw [CAServer.notify_go] at h
    by_cases h1 : s.subscription_ID = none
    · rw [if_pos h1] at h
      cases hr : CAServer.notify_go conns val sec ns tl with
      | none => rw [hr] at h; exact absurd h (by simp)
      | some r =>
        rw [hr] at h
        simp only [Option.map, Option.some.injEq, Prod.mk.injEq] at h
        rw [← h.2] at haf
        exact ih r.1 r.2 (by rw [hr]) af haf
    · rw [if_neg h1] at h
      by_cases h2 : a ∈ conns
      · rw [if_pos h2] at h
        dsimp only at h
        cases hd2 : CAServer.CA_binary_data val (CAServer.CA_type val) sec ns with
        | none => rw [hd2] at h; exact absurd h (by simp)
        | some data =>
          rw [hd2] at h
          dsimp only at h
          cases hm : CAServer.message 1 0 (CAServer.CA_type val)
              (CAServer.CA_count val) 1 (s.subscription_ID.getD 0) (some data) with
          | none => rw [hm] at h; exact absurd h (by simp)
          | some frame =>
            rw [hm] at h
            dsimp only at h
            cases hr : CAServer.notify_go conns val sec ns tl with
            | none => rw [hr] at h; exact absurd h (by simp)
            | some r =>
              rw [hr] at h
              simp only [Option.map, Option.some.injEq, Prod.mk.injEq] at h
              rw [← h.2] at haf
              rcases List.mem_cons.mp haf with hhd | htl
              · have hm2 : CA.message 1 0 (CAServer.CA_type val)
                    (CAServer.CA_count val) 1 (s.subscription_ID.getD 0) data
                    = some frame := hm
                have hf := message_fields hm2
                rw [hhd]
                exact ⟨hf.1, hf.2.2.1, hf.2.2.2.1, hf.2.2.2.2.1⟩
              · exact ih r.1 r.2 (by rw [hr]) af htl
      · rw [if_neg h2] at h
        cases hr : CAServer.notify_go conns val sec ns tl with
        | none => rw [hr] at h; exact absurd h (by simp)
        | some r =>
          rw [hr] at h
          simp only [Option.map, Option.some.injEq, Prod.mk.injEq] at h
          rw [← h.2] at haf
          exact ih r.1 r.2 (by rw [hr]) af haf

/-- C2 (corrected): whenever the change-detection fanout runs without
raising, every EVENT_ADD frame it sends carries the data type and count
derived from the value itself (`CA_type(value)` / `CA_count(value)`), not
the data type and count the subscriber requested when its EVENT_ADD request
was processed — the loop overwrites the recorded request before encoding,
so all subscribers receive the same value-derived type. -/
theorem notify_uses_value_derived_type
    (subs subs2 : List (CAServer.Addr × CAServer.subscriber_info))
    (conns : List CAServer.Addr) (val : PyVal) (sec ns : Nat)
    (frames : List (CAServer.Addr × List Nat))
    (h : CAServer.notify_subscribers_of_value subs conns (some val) sec ns
          = some (subs2, frames)) :
    ∀ af ∈ frames,
      readBE16 af.2 0 = 1 ∧
      readBE16 af.2 4 = CAServer.CA_type val ∧
      readBE16 af.2 6 = CAServer.CA_count val ∧
      readBE32 af.2 8 = 1 :=
  notify_go_fields conns val sec ns subs subs2 frames h

/-- C2 counterexample: a subscriber whose recorded EVENT_ADD request was
TIME_LONG (type code 19, count 1) receives, when the int value 7 is fanned
out, a frame whose data_type field is LONG (5), not the requested 19, and
its stored record is overwritten to 5 as well. -/
theorem notify_ignores_requested_type_cex :
    exampleSub.data_type = some 19 ∧
    CAServer.notify_subscribers_of_value [(exampleAddr, exampleSub)]
        [exampleAddr] (some (.scalar (.pint 7))) 0 0
      = some ([(exampleAddr,
          { subscription_ID := some 33, data_type := some 5,
            data_count := some 1 })],
          [(exampleAddr, exampleFrame)]) ∧
    readBE16 exampleFrame 4 = 5 ∧ (5 : Nat) ≠ 19 :=
  ⟨rfl, rfl, rfl, by norm_num⟩

set_option maxRecDepth 4000 in
/-- C2 witness: the theorem applied to the concrete one-subscriber state. -/
theorem notify_uses_value_derived_type_witness :
    readBE16 exampleFrame 0 = 1 ∧
    readBE16 exampleFrame 4 = CAServer.CA_type (.scalar (.pint 7)) ∧
    readBE16 exampleFrame 6 = CAServer.CA_count (.scalar (.pint 7)) ∧
    readBE32 exampleFrame 8 = 1 := by
  have h := notify_uses_value_derived_type [(exampleAddr, exampleSub)]
    [(exampleAddr,
      { subscription_ID := some 33, data_type := some 5, data_count := some 1 })]
    [exampleAddr] (.scalar (.pint 7)) 0 0 [(exampleAddr, exampleFrame)] rfl
  exact h (exampleAddr, exampleFrame) (by simp)

/-- The CREATE_CHAN loop produces one output entry per input entry. -/
theorem ccLoop_length (conns : List (String × Nat)) (addr : String × Nat)
    (dt dc cid sid t : Nat) :
    ∀ (todo done : List (String × CA.PV_info)),
      (CA.ccLoop conns addr dt dc cid sid t done todo).length
        = done.length + todo.length := by
  intro todo
  induction todo with
  | nil => intro done; rw [CA.ccLoop]; rfl
  | cons hd tl ih =>
    intro done
    obtain ⟨n, pv⟩ := hd
    rw [CA.ccLoop]
    split
    · rw [ih]; simp; omega
    · rw [ih]; simp; omega

/-- The CREATE_CHAN loop never rewrites entries it has already emitted. -/
theorem ccLoop_keeps_done (conns : List (String × Nat)) (addr : String × Nat)
    (dt dc cid sid t : Nat) :
    ∀ (todo done : List (String × CA.PV_info)) (j : Nat), j < done.length →
      (CA.ccLoop conns addr dt dc cid sid t done todo)[j]? = done[j]? := by
  intro todo
  induction todo with
  | nil => intro done j hj; rw [CA.ccLoop]
  | cons hd tl ih =>
    intro done j hj
    obtain ⟨n, pv⟩ := hd
    rw [CA.ccLoop]
    split
    · rw [ih _ j (by simp; omega), List.getElem?_append, if_pos hj]
    · rw [ih _ j (by simp; omega), List.getElem?_append, if_pos hj]

/-- One step of the CREATE_CHAN loop appends exactly one entry to the
accumulator, whichever branch is taken. -/
theorem ccLoop_cons (conns : List (String × Nat)) (addr : String × Nat)
    (dt dc cid sid t : Nat) (done tl : List (String × CA.PV_info))
    (n0 : String) (pv0 : CA.PV_info) :
    ∃ y, CA.ccLoop conns addr dt dc cid sid t done ((n0, pv0) :: tl)
      = CA.ccLoop conns addr dt dc cid sid t (done ++ [y]) tl := by
  rw [CA.ccLoop]
  split
  · exact ⟨_, rfl⟩
  · exact ⟨_, rfl⟩

/-- A PV whose `channel_SID` is already set passes through the CREATE_CHAN
loop untouched, wherever it sits in the table. -/
theorem ccLoop_skips (conns : List (String × Nat)) (addr : String × Nat)
    (dt dc cid sid t : Nat) :
    ∀ (todo done : List (String × CA.PV_info)) (i : Nat) (n : String)
      (pv : CA.PV_info), todo[i]? = some (n, pv) →
      pv.channel_ID = some cid → pv.channel_SID ≠ none →
      (CA.ccLoop conns addr dt dc cid sid t done todo)[done.length + i]?
        = some (n, pv) := by
  intro todo
  induction todo with
  | nil => intro done i n pv hi; simp at hi
  | cons hd tl ih =>
    intro done i n pv hi hcid hsid
    obtain ⟨n0, pv0⟩ := hd
    cases i with
    | zero =>
      simp only [List.getElem?_cons_zero, Option.some.injEq] at hi
      have hn : n0 = n := congrArg Prod.fst hi
      have hpv : pv0 = pv := congrArg Prod.snd hi
      subst hn hpv
      rw [CA.ccLoop, if_neg (by intro hc; exact hsid hc.2)]
      rw [Nat.add_zero]
      rw [ccLoop_keeps_done conns addr dt dc cid sid t tl (done ++ [(n0, pv0)])
        done.length (by simp)]
      simp
    | succ i2 =>
      obtain ⟨y, hy⟩ := ccLoop_cons conns addr dt dc cid sid t done tl n0 pv0
      rw [hy]
      rw [show done.length + (i2 + 1) = (done ++ [y]).length + i2 by
        simp; omega]
      exact ih (done ++ [y]) i2 n pv (by simpa using hi) hcid hsid

/-- C5 (confirmed): a SEARCH reply whose channel_ID matches a client PV with
`addr` already set, and a CREATE_CHAN reply whose channel_ID matches a
client PV with `channel_SID` already set, are duplicates and leave that
PV's entry — in particular its `addr`, `channel_SID`, `data_type` and
`data_count` — completely unchanged, wherever it sits in the table. -/
theorem duplicate_replies_no_overwrite
    (ip : String) (port cid t : Nat) (conns : List (String × Nat))
    (addr : String × Nat) (dt dc sid : Nat)
    (pvs : List (String × CA.PV_info)) (i : Nat) (n : String) (pv : CA.PV_info)
    (hi : pvs[i]? = some (n, pv)) (hcid : pv.channel_ID = some cid) :
    (pv.addr ≠ none →
      (CA.process_SEARCH_reply ip port cid t pvs)[i]? = some (n, pv)) ∧
    (pv.channel_SID ≠ none →
      (CA.process_CREATE_CHAN_reply conns addr dt dc cid sid t pvs)[i]?
        = some (n, pv)) := by
  constructor
  · intro ha
    rw [CA.process_SEARCH_reply, List.getElem?_map, hi]
    simp [CA.search_step, hcid, ha]
  · intro hs
    have h := ccLoop_skips conns addr dt dc cid sid t pvs [] i n pv hi hcid hs
    simpa using h

/-- C5 witness: the example PV (CID 42, addr and SID set) survives both a
duplicate SEARCH reply and a duplicate CREATE_CHAN reply untouched. -/
theorem duplicate_replies_no_overwrite_witness :
    (CA.process_SEARCH_reply "9.9.9.9" 777 42 5 [("P", examplePV)])[0]?
      = some ("P", examplePV) ∧
    (CA.process_CREATE_CHAN_reply [("10.0.0.2", 5064)] ("10.0.0.2", 5064)
        6 1 42 99 5 [("P", examplePV)])[0]? = some ("P", examplePV) := by
  have h := duplicate_replies_no_overwrite "9.9.9.9" 777 42 5
    [("10.0.0.2", 5064)] ("10.0.0.2", 5064) 6 1 99 [("P", examplePV)] 0 "P"
    examplePV rfl rfl
  exact ⟨h.1 (by decide), h.2 (by decide)⟩

